import Mathlib

/-!
Verification of the `MoleculePreparation` orchestrator from Meeko
(`meeko/preparation.py`), as a shallow embedding.

The orchestrator drives a pipeline of external collaborators (atom typer,
terminal-atom merger, bond typer, hydrator, macrocycle search, flexibility
builder, writer) over a mutable molecule-setup aggregate.  The collaborators
live outside the verified source; they are modelled as an explicit
environment of functions (`Env`).  Python exceptions are modelled by an
explicit error component in the result; the mutable attributes of the
preparer object (`setup`, `is_ok`, `log`) are threaded as explicit state.
A ghost trace of pipeline stages records which stages ran during a call.
-/

namespace Meeko

/-- Python exception kinds raised by the preparation module. -/
inductive PrepError where
  | typeError (msg : String)
  | valueError (msg : String)
  | runtimeError (msg : String)
  | notImplementedError (msg : String)
deriving DecidableEq

/-- Python return value of `prepare`: either `None` or some value. -/
inductive PyRet where
  | pyNone
  | pyVal (s : String)
deriving DecidableEq

/-- Ghost marker for each pipeline stage of `prepare` that actually ran:
atom typing (step 1), terminal-atom merging (step 2), bond typing (step 3),
hydration (step 4), macrocycle search (step 5), successful flexibility-tree
construction (step 6), entry into the reactive-typing branch, and the final
assignment that replaces `self.setup` with the built setup and sets
`is_ok`. -/
inductive Stage where
  | atomTyping
  | merging
  | bondTyping
  | hydration
  | macrocycleSearch
  | treeBuilding
  | reactiveTyping
  | finalAssign
deriving DecidableEq

/-- The molecule-setup aggregate, restricted to the fields the orchestrator
reads: name, the implicit-hydrogen flag, the atom-type table (an ordered
mapping from atom index to an optional type label), the ignore-flag table,
and the set of bond keys. -/
structure MolSetup where
  name : String
  implicitH : Bool
  atom_type : List (Nat × Option String)
  atom_ignore : List (Nat × Bool)
  bond : List (Nat × Nat)
deriving DecidableEq

/-- Toolkit molecule classes: the RDKit molecule class, the OpenBabel
molecule class, or any other Python type. -/
inductive MolType where
  | rdkitMol
  | obMol
  | otherType (descr : String)
deriving DecidableEq

/-- An input molecule object: its Python class, whether it carries a 3D
conformer, and the setup data the toolkit adapter would build from it. -/
structure Mol where
  molType : MolType
  hasConformer : Bool
  setupData : MolSetup
deriving DecidableEq

/-- Mapping from parent atom index to the supplied glue pseudo-atom
coordinates (a tuple of numbers, modelled as a list). -/
abbrev GlueMap : Type := List (Nat × List Int)

/-- Opaque carrier for the break-combination data produced by the
macrocycle search and consumed by the flexibility builder. -/
abbrev MacroData : Type := List (Nat × Nat)

/-- Membership test of the `_classes_setup` dispatch table: RDKit molecules
are always registered; OpenBabel molecules only when the openbabel import
succeeded; nothing else is registered. -/
def classesSetupHas (has_openbabel : Bool) : MolType → Bool
  | MolType.rdkitMol => true
  | MolType.obMol => has_openbabel
  | MolType.otherType _ => false

/-- Printable name of a molecule class, used in the unsupported-type
error message. -/
def molTypeName : MolType → String
  | MolType.rdkitMol => "rdkit.Chem.rdchem.Mol"
  | MolType.obMol => "openbabel.OBMol"
  | MolType.otherType d => d

/-- Modelled from the spec: bonds are keyed by the unordered pair of atom
indices (`MoleculeSetup.get_bond_id` lives in `molsetup.py`, which is not
part of the verified source). -/
def get_bond_id (i j : Nat) : Nat × Nat := (min i j, max i j)

/-- Modelled from the spec: message of the error raised by setup
construction when the molecule has no 3D conformer; the spec pins only the
verbatim suffix "Need 3D coordinates.". -/
def noConformer3DMsg : String := "molecule has no conformer. Need 3D coordinates."

/-- Modelled from the spec: `setup_class(mol, ...)` (the toolkit adapter
constructors in `molsetup.py`, not part of the verified source) wraps the
molecule into the internal setup aggregate and fails with a ValueError
whose message ends in "Need 3D coordinates." when the molecule lacks a 3D
conformer. The ring-option flags and conformer id do not affect the
behavior modelled here. -/
def setup_from_mol (mol : Mol) (_conformer_id : Int) : Except PrepError MolSetup :=
  if mol.hasConformer then Except.ok mol.setupData
  else Except.error (PrepError.valueError noConformer3DMsg)

/-- The environment of external collaborators called by the orchestrator.
Each field stands for one collaborator object held by the preparer. -/
structure Env where
  has_openbabel : Bool
  atom_typer : MolSetup → MolSetup
  merge_terminal_atoms : MolSetup → List Nat → MolSetup
  bond_typer : MolSetup → Bool → List String → List (List Nat) → List Nat → MolSetup
  hydrate_water : MolSetup → MolSetup
  search_macrocycle : MolSetup → List (Nat × Nat) → Option MacroData × Option (List (Nat × Nat))
  flex_builder : MolSetup → Option Nat → Option MacroData → Option (List (Nat × Nat)) → GlueMap → Except PrepError MolSetup
  assign_reactive_types : MolSetup → String → Option Nat → List (List (Nat × String))
  writer_write_string : MolSetup → Bool → Bool → String

/-- The state of a `MoleculePreparation` instance: the construction-time
configuration plus the mutable per-call attributes `setup`, `is_ok` and
`log`. -/
structure MoleculePreparation where
  merge_these_atom_types : List String
  hydrate : Bool
  flexible_amides : Bool
  rigid_macrocycles : Bool
  min_ring_size : Nat
  max_ring_size : Nat
  keep_chorded_rings : Bool
  keep_equivalent_rings : Bool
  double_bond_penalty : Nat
  rigidify_bonds_smarts : List String
  rigidify_bonds_indices : List (List Nat)
  atom_type_smarts : List (String × String)
  reactive_smarts : Option String
  reactive_smarts_idx : Option Nat
  add_index_map : Bool
  remove_smiles : Bool
  setup : Option MolSetup
  is_ok : Option Bool
  log : String
deriving DecidableEq

/-- `MoleculePreparation.__init__`: stores the configuration, initializes
`setup = None`, `is_ok = None`, `log = ""`, and raises a ValueError when
exactly one of `reactive_smarts` and `reactive_smarts_idx` is None.  (The
`keep_chorded_rings` RuntimeWarning is a warning, not an exception, and is
not modelled.) -/
def mkMoleculePreparation
    (merge_these_atom_types : List String)
    (hydrate : Bool)
    (flexible_amides : Bool)
    (rigid_macrocycles : Bool)
    (min_ring_size : Nat)
    (max_ring_size : Nat)
    (keep_chorded_rings : Bool)
    (keep_equivalent_rings : Bool)
    (double_bond_penalty : Nat)
    (rigidify_bonds_smarts : List String)
    (rigidify_bonds_indices : List (List Nat))
    (atom_type_smarts : List (String × String))
    (reactive_smarts : Option String)
    (reactive_smarts_idx : Option Nat)
    (add_index_map : Bool)
    (remove_smiles : Bool) : Except PrepError MoleculePreparation :=
  if reactive_smarts.isNone != reactive_smarts_idx.isNone then
    Except.error (PrepError.valueError "reactive_smarts and reactive_smarts_idx require each other")
  else
    Except.ok
      { merge_these_atom_types := merge_these_atom_types
        hydrate := hydrate
        flexible_amides := flexible_amides
        rigid_macrocycles := rigid_macrocycles
        min_ring_size := min_ring_size
        max_ring_size := max_ring_size
        keep_chorded_rings := keep_chorded_rings
        keep_equivalent_rings := keep_equivalent_rings
        double_bond_penalty := double_bond_penalty
        rigidify_bonds_smarts := rigidify_bonds_smarts
        rigidify_bonds_indices := rigidify_bonds_indices
        atom_type_smarts := atom_type_smarts
        reactive_smarts := reactive_smarts
        reactive_smarts_idx := reactive_smarts_idx
        add_index_map := add_index_map
        remove_smiles := remove_smiles
        setup := none
        is_ok := none
        log := "" }

/-- Result of one `prepare` call: the preparer state after the call, the
exception raised (if any), the Python return value, and the ghost stage
trace. -/
structure PrepOutcome where
  state : MoleculePreparation
  error : Option PrepError
  ret : PyRet
  trace : List Stage
deriving DecidableEq

/-- Indices of atoms whose current type equals one of the types selected
for terminal-atom merging (the set built by the merge loop of
`prepare`). -/
def mergeIndices (mtypes : List String) (atom_type : List (Nat × Option String)) : List Nat :=
  (atom_type.filter (fun p =>
    match p.2 with
    | some t => mtypes.contains t
    | none => false)).map (fun p => p.1)

/-- Per-endpoint part of `_check_external_ring_break`: the endpoint must
appear in `glue_pseudo_atoms` and its coordinates must have length 3. -/
def checkGlueEntry (glue : GlueMap) (index : Nat) : Option PrepError :=
  match List.lookup index glue with
  | none => some (PrepError.valueError ("missing glue pseudo for atom " ++ toString index))
  | some xyz =>
    if xyz.length != 3 then
      some (PrepError.valueError ("expected 3 coordinates (got " ++ toString xyz.length ++
        ") for glue pseudo of atom " ++ toString index))
    else none

/-- `MoleculePreparation._check_external_ring_break`: for each requested
ring-bond deletion, the bond must exist in the setup bond table and both
endpoints must have a well-formed glue pseudo-atom entry; the first
violation raises a ValueError. -/
def check_external_ring_break (setup : MolSetup) :
    List (Nat × Nat) → GlueMap → Option PrepError
  | [], _ => none
  | (index1, index2) :: rest, glue =>
    if !(setup.bond.contains (get_bond_id index1 index2)) then
      some (PrepError.valueError ("bond (" ++ toString index1 ++ ", " ++ toString index2 ++
        ") not in molsetup"))
    else
      match checkGlueEntry glue index1 with
      | some e => some e
      | none =>
        match checkGlueEntry glue index2 with
        | some e => some e
        | none => check_external_ring_break setup rest glue

/-- Loop body of `_are_all_atoms_typed`: scan the atom-type table, flip
`is_ok` to false and append a message for every atom whose type is None. -/
def typing_loop (name : String) :
    List (Nat × Option String) → Bool → String → Bool × String
  | [], is_ok, msg => (is_ok, msg)
  | (idx, t) :: rest, is_ok, msg =>
    match t with
    | none => typing_loop name rest false
        (msg ++ "atom number " ++ toString idx ++ " has None type, mol name: " ++ name)
    | some _ => typing_loop name rest is_ok msg

/-- `MoleculePreparation._are_all_atoms_typed`: returns the `is_ok` verdict
together with the diagnostic message assigned to `self.log`. -/
def are_all_atoms_typed (setup : MolSetup) : Bool × String :=
  typing_loop setup.name setup.atom_type true ""

/-- Stage markers accumulated by the time the pipeline reaches the
flexibility builder: steps 1-3 always run, hydration only when the
`hydrate` option is set, macrocycle search only when `rigid_macrocycles`
is not set. -/
def stdStages (hyd rigid : Bool) : List Stage :=
  [Stage.atomTyping, Stage.merging, Stage.bondTyping] ++
    (if hyd then [Stage.hydration] else []) ++
    (if rigid then [] else [Stage.macrocycleSearch])

/-- Steps 1-4 of the pipeline (atom typing, terminal-atom merging, bond
typing, optional hydration): the in-place mutations of the shared setup
object, threaded explicitly. -/
def pipelineSetup (env : Env) (selfA : MoleculePreparation) (setup0 : MolSetup)
    (not_terminal_atoms : List Nat) : MolSetup :=
  let setup1 := env.atom_typer setup0
  let indices := mergeIndices selfA.merge_these_atom_types setup1.atom_type
  let setup2 := env.merge_terminal_atoms setup1 indices
  let setup3 := env.bond_typer setup2 selfA.flexible_amides selfA.rigidify_bonds_smarts
    selfA.rigidify_bonds_indices not_terminal_atoms
  if selfA.hydrate then env.hydrate_water setup3 else setup3

/-- The tail of `prepare` from the flexibility-builder call on: on builder
failure the exception propagates; on success, when `reactive_smarts` is
set, reactive types are computed and a NotImplementedError is raised
without touching `self.setup` or `self.is_ok`; otherwise `self.setup` is
replaced by the built setup and `is_ok` and `log` are set from the
all-atoms-typed check. -/
def prepare_finish (env : Env) (selfE : MoleculePreparation) (tr : List Stage)
    (flexRes : Except PrepError MolSetup) : PrepOutcome :=
  match flexRes with
  | Except.error e =>
    { state := selfE, error := some e, ret := PyRet.pyNone, trace := tr }
  | Except.ok new_setup =>
    match selfE.reactive_smarts with
    | some smarts =>
      let _reactive_types_dicts :=
        env.assign_reactive_types new_setup smarts selfE.reactive_smarts_idx
      { state := selfE
        error := some (PrepError.notImplementedError
          "not doing anything with reactive_types_dicts, molsetup is unchanged")
        ret := PyRet.pyNone
        trace := tr ++ [Stage.treeBuilding, Stage.reactiveTyping] }
    | none =>
      let checked := are_all_atoms_typed new_setup
      { state := { selfE with setup := some new_setup, is_ok := some checked.1, log := checked.2 }
        error := none
        ret := PyRet.pyNone
        trace := tr ++ [Stage.treeBuilding, Stage.finalAssign] }

/-- The pipeline portion of `prepare` that runs after the setup was
constructed, stored into `self.setup`, and the external ring-break request
was validated (`selfA` is the preparer with `setup` already assigned). -/
def prepare_core (env : Env) (selfA : MoleculePreparation) (setup0 : MolSetup)
    (root_atom_index : Option Nat) (not_terminal_atoms : List Nat)
    (delete_ring_bonds : List (Nat × Nat)) (glue_pseudo_atoms : GlueMap) : PrepOutcome :=
  if setup0.implicitH then
    { state :=
        { selfA with
          is_ok := some false
          log := selfA.log ++ "molecule has implicit hydrogens" }
      error := none
      ret := PyRet.pyNone
      trace := [] }
  else
    let setup4 := pipelineSetup env selfA setup0 not_terminal_atoms
    let selfE := { selfA with setup := some setup4 }
    let mres := if selfA.rigid_macrocycles then (none, none)
      else env.search_macrocycle setup4 delete_ring_bonds
    prepare_finish env selfE (stdStages selfA.hydrate selfA.rigid_macrocycles)
      (env.flex_builder setup4 root_atom_index mres.1 mres.2 glue_pseudo_atoms)

/-- `MoleculePreparation.prepare`: type dispatch, setup construction,
assignment of `self.setup`, external ring-break validation, then the
pipeline. -/
def prepare (env : Env) (self : MoleculePreparation) (mol : Mol)
    (root_atom_index : Option Nat) (not_terminal_atoms : List Nat)
    (delete_ring_bonds : List (Nat × Nat)) (glue_pseudo_atoms : GlueMap)
    (conformer_id : Int) : PrepOutcome :=
  if !(classesSetupHas env.has_openbabel mol.molType) then
    { state := self
      error := some (PrepError.typeError
        ("Molecule is not an instance of supported types: " ++ molTypeName mol.molType))
      ret := PyRet.pyNone
      trace := [] }
  else
    match setup_from_mol mol conformer_id with
    | Except.error e =>
      { state := self, error := some e, ret := PyRet.pyNone, trace := [] }
    | Except.ok setup0 =>
      let self1 := { self with setup := some setup0 }
      match check_external_ring_break setup0 delete_ring_bonds glue_pseudo_atoms with
      | some e =>
        { state := self1, error := some e, ret := PyRet.pyNone, trace := [] }
      | none =>
        prepare_core env self1 setup0 root_atom_index not_terminal_atoms
          delete_ring_bonds glue_pseudo_atoms

/-- `MoleculePreparation.write_pdbqt_string`: refuses with a RuntimeError
when `is_ok == False`, otherwise serializes the stored setup, or refuses
with a RuntimeError when no setup is stored. -/
def write_pdbqt_string (env : Env) (self : MoleculePreparation)
    (add_index_map remove_smiles : Option Bool) : Except PrepError String :=
  if self.is_ok == some false then
    Except.error (PrepError.runtimeError
      ("Molecule not OK, refusing to write PDBQT\n\nLOG:\n" ++ self.log))
  else
    let aim := add_index_map.getD self.add_index_map
    let rs := remove_smiles.getD self.remove_smiles
    match self.setup with
    | some s => Except.ok (env.writer_write_string s aim rs)
    | none =>
      Except.error (PrepError.runtimeError
        "Cannot generate PDBQT file, the molecule is not prepared.")

/-- Renaming applied inside `adapt_pdbqt_for_autodock4_flexres`: the
`atom_number`-th ATOM line has its characters 13-14 replaced by CA when
it is the first and by CB when it is the second. -/
def renameAtomLine : Nat → String → String
  | 1, line => line.take 13 ++ "CA" ++ line.drop 15
  | 2, line => line.take 13 ++ "CB" ++ line.drop 15
  | _, line => line

/-- Line loop of `adapt_pdbqt_for_autodock4_flexres`: skip empty and
TORSDOF lines, count ATOM lines and rename the first two, append every
kept line plus a newline to the accumulator. -/
def adapt_loop : List String → Nat → String → String
  | [], _, acc => acc
  | line :: rest, atom_number, acc =>
    if line == "" then adapt_loop rest atom_number acc
    else if line.startsWith "TORSDOF" then adapt_loop rest atom_number acc
    else if line.startsWith "ATOM" then
      adapt_loop rest (atom_number + 1) (acc ++ renameAtomLine (atom_number + 1) line ++ "\n")
    else adapt_loop rest atom_number (acc ++ line ++ "\n")

/-- `MoleculePreparation.adapt_pdbqt_for_autodock4_flexres`. -/
def adapt_pdbqt_for_autodock4_flexres (pdbqt_string res chain num : String) : String :=
  adapt_loop (pdbqt_string.splitOn "\n") 0
    ("BEGIN_RES " ++ res ++ " " ++ chain ++ " " ++ num ++ "\n") ++
    ("END_RES " ++ res ++ " " ++ chain ++ " " ++ num ++ "\n")

/-- Preparer state carrying the construction-time defaults of
`MoleculePreparation.__init__` (fresh instance: `setup = None`,
`is_ok = None`, empty log). -/
def defaultPrep : MoleculePreparation :=
  { merge_these_atom_types := ["H"]
    hydrate := false
    flexible_amides := false
    rigid_macrocycles := false
    min_ring_size := 7
    max_ring_size := 33
    keep_chorded_rings := false
    keep_equivalent_rings := false
    double_bond_penalty := 50
    rigidify_bonds_smarts := []
    rigidify_bonds_indices := []
    atom_type_smarts := []
    reactive_smarts := none
    reactive_smarts_idx := none
    add_index_map := false
    remove_smiles := false
    setup := none
    is_ok := none
    log := "" }

/-- A minimal concrete environment of collaborators, used to evaluate the
embedding on concrete inputs: the typers leave the setup unchanged and the
flexibility builder returns its input as the built setup. -/
def idEnv : Env :=
  { has_openbabel := false
    atom_typer := fun s => s
    merge_terminal_atoms := fun s _ => s
    bond_typer := fun s _ _ _ _ => s
    hydrate_water := fun s => s
    search_macrocycle := fun _ _ => (none, none)
    flex_builder := fun s _ _ _ _ => Except.ok s
    assign_reactive_types := fun _ _ _ => []
    writer_write_string := fun _ _ _ => "PDBQT" }

/-- A small fully typed two-atom setup with one bond. -/
def okSetup : MolSetup :=
  { name := "mol1"
    implicitH := false
    atom_type := [(0, some "C"), (1, some "H")]
    atom_ignore := [(0, false), (1, false)]
    bond := [(0, 1)] }

/-- A supported molecule with a conformer and explicit hydrogens. -/
def okMol : Mol :=
  { molType := MolType.rdkitMol, hasConformer := true, setupData := okSetup }

/-- A supported molecule with a conformer but implicit hydrogens. -/
def implicitHMol : Mol :=
  { molType := MolType.rdkitMol, hasConformer := true
    setupData := { okSetup with implicitH := true } }

/-- A supported molecule lacking a 3D conformer. -/
def noConfMol : Mol :=
  { molType := MolType.rdkitMol, hasConformer := false, setupData := okSetup }

/-- An input object whose type is not a registered molecule class. -/
def badTypeMol : Mol :=
  { molType := MolType.otherType "str", hasConformer := true, setupData := okSetup }

/-- Ignore flag of an atom index in a setup (false when absent). -/
def ignoreOf (s : MolSetup) (i : Nat) : Bool :=
  (List.lookup i s.atom_ignore).getD false

/-- Claim-side predicate: every atom of the setup whose ignore flag is not
set carries a non-null type label. -/
def allNonIgnoredTyped (s : MolSetup) : Bool :=
  s.atom_type.all (fun p => ignoreOf s p.1 || p.2.isSome)

/-- Observable outputs of a `prepare` call: the exception, the three
mutable attributes, the Python return value and the stage trace. -/
def obs (o : PrepOutcome) :
    Option PrepError × Option Bool × String × Option MolSetup × PyRet × List Stage :=
  (o.error, o.state.is_ok, o.state.log, o.state.setup, o.ret, o.trace)

/-- Helper: exhaustive case analysis of the pipeline tail, by the
flexibility-builder result and the reactive-smarts option. -/
theorem prepare_finish_cases (env : Env) (sE : MoleculePreparation) (tr : List Stage)
    (fr : Except PrepError MolSetup) :
    (∃ e, fr = Except.error e ∧
      prepare_finish env sE tr fr =
        { state := sE, error := some e, ret := PyRet.pyNone, trace := tr }) ∨
    (∃ ns s, fr = Except.ok ns ∧ sE.reactive_smarts = some s ∧
      prepare_finish env sE tr fr =
        { state := sE
          error := some (PrepError.notImplementedError
            "not doing anything with reactive_types_dicts, molsetup is unchanged")
          ret := PyRet.pyNone
          trace := tr ++ [Stage.treeBuilding, Stage.reactiveTyping] }) ∨
    (∃ ns, fr = Except.ok ns ∧ sE.reactive_smarts = none ∧
      prepare_finish env sE tr fr =
        { state :=
            { sE with
              setup := some ns
              is_ok := some (are_all_atoms_typed ns).1
              log := (are_all_atoms_typed ns).2 }
          error := none
          ret := PyRet.pyNone
          trace := tr ++ [Stage.treeBuilding, Stage.finalAssign] }) := by
  cases fr with
  | error e => exact Or.inl ⟨e, rfl, rfl⟩
  | ok ns =>
    cases h : sE.reactive_smarts with
    | some s => exact Or.inr (Or.inl ⟨ns, s, rfl, rfl, by simp [prepare_finish, h]⟩)
    | none => exact Or.inr (Or.inr ⟨ns, rfl, rfl, by simp [prepare_finish, h]⟩)

/-- Helper: in every branch of the pipeline tail the Python return value is
None, and when no exception is raised both `is_ok` and `setup` end up
populated. -/
theorem prepare_finish_shape (env : Env) (sE : MoleculePreparation) (tr : List Stage)
    (fr : Except PrepError MolSetup) :
    (prepare_finish env sE tr fr).ret = PyRet.pyNone ∧
    ((prepare_finish env sE tr fr).error = none →
      (prepare_finish env sE tr fr).state.is_ok.isSome = true ∧
      ((prepare_finish env sE tr fr).state.setup = sE.setup ∨
        (prepare_finish env sE tr fr).state.setup.isSome = true)) := by
  rcases prepare_finish_cases env sE tr fr with ⟨e, hf, heq⟩ | ⟨ns, s, hf, hr, heq⟩ | ⟨ns, hf, hr, heq⟩ <;>
    rw [heq] <;> simp

/-- Helper: in every branch of the pipeline core the Python return value is
None, and when no exception is raised both `is_ok` and `setup` end up
populated (`setup` either keeps the value stored before the pipeline or is
replaced by the built setup). -/
theorem prepare_core_shape (env : Env) (selfA : MoleculePreparation) (setup0 : MolSetup)
    (rai : Option Nat) (nta : List Nat) (drb : List (Nat × Nat)) (gpa : GlueMap) :
    (prepare_core env selfA setup0 rai nta drb gpa).ret = PyRet.pyNone ∧
    ((prepare_core env selfA setup0 rai nta drb gpa).error = none →
      (prepare_core env selfA setup0 rai nta drb gpa).state.is_ok.isSome = true ∧
      ((prepare_core env selfA setup0 rai nta drb gpa).state.setup = selfA.setup ∨
        (prepare_core env selfA setup0 rai nta drb gpa).state.setup.isSome = true)) := by
  unfold prepare_core
  split
  · simp
  · refine ⟨(prepare_finish_shape env _ _ _).1, fun he => ⟨((prepare_finish_shape env _ _ _).2 he).1, ?_⟩⟩
    rcases ((prepare_finish_shape env _ _ _).2 he).2 with h | h
    · exact Or.inr (by rw [h]; rfl)
    · exact Or.inr h


/-- C8: for every input object whose type is not a registered molecule
class, `prepare` raises a TypeError immediately and leaves the preparer
state unchanged: `setup`, `is_ok` and `log` keep exactly the values they
had before the call, and no pipeline stage runs. -/
theorem c8_unsupported_type_raises (env : Env) (self : MoleculePreparation) (mol : Mol)
    (rai : Option Nat) (nta : List Nat) (drb : List (Nat × Nat)) (gpa : GlueMap) (cid : Int)
    (hty : classesSetupHas env.has_openbabel mol.molType = false) :
    prepare env self mol rai nta drb gpa cid =
      { state := self
        error := some (PrepError.typeError
          ("Molecule is not an instance of supported types: " ++ molTypeName mol.molType))
        ret := PyRet.pyNone
        trace := [] } := by
  simp [prepare, hty]

/-- Witness for C8 at a concrete unsupported input object. -/
theorem c8_unsupported_type_raises_witness :
    classesSetupHas idEnv.has_openbabel badTypeMol.molType = false ∧
    prepare idEnv defaultPrep badTypeMol none [] [] [] (-1) =
      { state := defaultPrep
        error := some (PrepError.typeError "Molecule is not an instance of supported types: str")
        ret := PyRet.pyNone
        trace := [] } :=
  ⟨rfl, c8_unsupported_type_raises idEnv defaultPrep badTypeMol none [] [] [] (-1) rfl⟩

/-- C5: for every supported input molecule lacking a 3D conformer,
`prepare` raises a ValueError whose message ends with the verbatim suffix
"Need 3D coordinates.", before any pipeline stage runs (and before the
preparer state is touched). -/
theorem c5_no_conformer_value_error (env : Env) (self : MoleculePreparation) (mol : Mol)
    (rai : Option Nat) (nta : List Nat) (drb : List (Nat × Nat)) (gpa : GlueMap) (cid : Int)
    (hty : classesSetupHas env.has_openbabel mol.molType = true)
    (hconf : mol.hasConformer = false) :
    ∃ m a, (prepare env self mol rai nta drb gpa cid).error = some (PrepError.valueError m) ∧
      m = a ++ "Need 3D coordinates." ∧
      (prepare env self mol rai nta drb gpa cid).trace = [] ∧
      (prepare env self mol rai nta drb gpa cid).state = self := by
  refine ⟨noConformer3DMsg, "molecule has no conformer. ", ?_, rfl, ?_, ?_⟩ <;>
    simp [prepare, setup_from_mol, hty, hconf]

/-- Witness for C5 at a concrete conformer-free molecule. -/
theorem c5_no_conformer_value_error_witness :
    (classesSetupHas idEnv.has_openbabel noConfMol.molType = true ∧
      noConfMol.hasConformer = false) ∧
    (∃ m a, (prepare idEnv defaultPrep noConfMol none [] [] [] (-1)).error =
        some (PrepError.valueError m) ∧
      m = a ++ "Need 3D coordinates." ∧
      (prepare idEnv defaultPrep noConfMol none [] [] [] (-1)).trace = [] ∧
      (prepare idEnv defaultPrep noConfMol none [] [] [] (-1)).state = defaultPrep) :=
  ⟨⟨rfl, rfl⟩, c5_no_conformer_value_error idEnv defaultPrep noConfMol none [] [] [] (-1) rfl rfl⟩

/-- C2: `write_pdbqt_string` refuses with a RuntimeError whenever the
preparation is marked failed (`is_ok` is False) or no setup is stored (as
on a fresh instance on which `prepare` has never been run); it never
returns serialized text in those states. -/
theorem c2_writer_refusal (env : Env) (self : MoleculePreparation)
    (add_index_map remove_smiles : Option Bool)
    (h : self.is_ok = some false ∨ self.setup = none) :
    ∃ m, write_pdbqt_string env self add_index_map remove_smiles =
      Except.error (PrepError.runtimeError m) := by
  unfold write_pdbqt_string
  by_cases hok : (self.is_ok == some false) = true
  · rw [if_pos hok]
    exact ⟨_, rfl⟩
  · rw [if_neg hok]
    rcases h with h | h
    · exact absurd (by rw [h]; rfl) hok
    · rw [h]
      exact ⟨_, rfl⟩

/-- Witness for C2 at a fresh instance on which `prepare` never ran. -/
theorem c2_writer_refusal_witness :
    (defaultPrep.is_ok = some false ∨ defaultPrep.setup = none) ∧
    ∃ m, write_pdbqt_string idEnv defaultPrep none none =
      Except.error (PrepError.runtimeError m) :=
  ⟨Or.inr rfl, c2_writer_refusal idEnv defaultPrep none none (Or.inr rfl)⟩

/-- C1: for every supported input molecule with a conformer and implicit
hydrogens (and a ring-break request that passes validation), `prepare`
completes without raising, sets `is_ok` to False, appends the
implicit-hydrogen message to the log (leaving it non-empty), and runs no
typing, merging or tree-building stage. -/
theorem c1_implicit_hydrogens_short_circuit (env : Env) (self : MoleculePreparation) (mol : Mol)
    (rai : Option Nat) (nta : List Nat) (drb : List (Nat × Nat)) (gpa : GlueMap) (cid : Int)
    (hty : classesSetupHas env.has_openbabel mol.molType = true)
    (hconf : mol.hasConformer = true)
    (hchk : check_external_ring_break mol.setupData drb gpa = none)
    (himp : mol.setupData.implicitH = true) :
    (prepare env self mol rai nta drb gpa cid).error = none ∧
    (prepare env self mol rai nta drb gpa cid).ret = PyRet.pyNone ∧
    (prepare env self mol rai nta drb gpa cid).state.is_ok = some false ∧
    (prepare env self mol rai nta drb gpa cid).state.log =
      self.log ++ "molecule has implicit hydrogens" ∧
    (prepare env self mol rai nta drb gpa cid).state.log ≠ "" ∧
    (prepare env self mol rai nta drb gpa cid).trace = [] := by
  have hlog : (prepare env self mol rai nta drb gpa cid).state.log =
      self.log ++ "molecule has implicit hydrogens" := by
    simp [prepare, setup_from_mol, hty, hconf, hchk, prepare_core, himp]
  refine ⟨?_, ?_, ?_, hlog, ?_, ?_⟩
  · simp [prepare, setup_from_mol, hty, hconf, hchk, prepare_core, himp]
  · simp [prepare, setup_from_mol, hty, hconf, hchk, prepare_core, himp]
  · simp [prepare, setup_from_mol, hty, hconf, hchk, prepare_core, himp]
  · rw [hlog]
    intro hcontra
    have hlen := congrArg String.length hcontra
    rw [String.length_append] at hlen
    have h31 : String.length "molecule has implicit hydrogens" = 31 := rfl
    have h0 : String.length "" = 0 := rfl
    omega
  · simp [prepare, setup_from_mol, hty, hconf, hchk, prepare_core, himp]

/-- Witness for C1 at a concrete implicit-hydrogen molecule. -/
theorem c1_implicit_hydrogens_short_circuit_witness :
    (classesSetupHas idEnv.has_openbabel implicitHMol.molType = true ∧
      implicitHMol.hasConformer = true ∧
      check_external_ring_break implicitHMol.setupData [] [] = none ∧
      implicitHMol.setupData.implicitH = true) ∧
    (prepare idEnv defaultPrep implicitHMol none [] [] [] (-1)).error = none ∧
    (prepare idEnv defaultPrep implicitHMol none [] [] [] (-1)).state.is_ok = some false ∧
    (prepare idEnv defaultPrep implicitHMol none [] [] [] (-1)).state.log ≠ "" ∧
    (prepare idEnv defaultPrep implicitHMol none [] [] [] (-1)).trace = [] := by
  have h := c1_implicit_hydrogens_short_circuit idEnv defaultPrep implicitHMol
    none [] [] [] (-1) rfl rfl rfl rfl
  exact ⟨⟨rfl, rfl, rfl, rfl⟩, h.1, h.2.2.1, h.2.2.2.2.1, h.2.2.2.2.2⟩

/-- C10: every `prepare` call that raises no exception returns None; the
prepared structure and status are exposed only through the instance
attributes, which are both populated on every non-raising call. -/
theorem c10_prepare_returns_none (env : Env) (self : MoleculePreparation) (mol : Mol)
    (rai : Option Nat) (nta : List Nat) (drb : List (Nat × Nat)) (gpa : GlueMap) (cid : Int)
    (h : (prepare env self mol rai nta drb gpa cid).error = none) :
    (prepare env self mol rai nta drb gpa cid).ret = PyRet.pyNone ∧
    (prepare env self mol rai nta drb gpa cid).state.setup.isSome = true ∧
    (prepare env self mol rai nta drb gpa cid).state.is_ok.isSome = true := by
  revert h
  unfold prepare
  split
  · intro h
    simp at h
  · split
    · intro h
      simp at h
    · split
      · intro h
        simp at h
      · intro h
        have hs2 := (prepare_core_shape env _ _ rai nta drb gpa).2 h
        refine ⟨(prepare_core_shape env _ _ rai nta drb gpa).1, ?_, hs2.1⟩
        rcases hs2.2 with h2 | h2
        · rw [h2]
          simp
        · exact h2

/-- Witness for C10 at a concrete successful preparation. -/
theorem c10_prepare_returns_none_witness :
    (prepare idEnv defaultPrep okMol none [] [] [] (-1)).error = none ∧
    (prepare idEnv defaultPrep okMol none [] [] [] (-1)).ret = PyRet.pyNone ∧
    (prepare idEnv defaultPrep okMol none [] [] [] (-1)).state.setup.isSome = true ∧
    (prepare idEnv defaultPrep okMol none [] [] [] (-1)).state.is_ok.isSome = true :=
  ⟨rfl, c10_prepare_returns_none idEnv defaultPrep okMol none [] [] [] (-1) rfl⟩

/-- Helper: the tail stage markers never occur in the pre-flexibility
stage list. -/
theorem stdStages_no_tail_marks (hyd rigid : Bool) :
    Stage.treeBuilding ∉ stdStages hyd rigid ∧
    Stage.finalAssign ∉ stdStages hyd rigid ∧
    Stage.reactiveTyping ∉ stdStages hyd rigid := by
  cases hyd <;> cases rigid <;> decide

/-- Helper: with `reactive_smarts` set, a pipeline tail whose trace shows a
built tree always raises the NotImplementedError and leaves `is_ok`, `log`
and `setup` untouched, and the final assignment never runs. -/
theorem prepare_finish_reactive (env : Env) (sE : MoleculePreparation) (hyd rigid : Bool)
    (fr : Except PrepError MolSetup) (s : String) (hr : sE.reactive_smarts = some s) :
    (Stage.treeBuilding ∈ (prepare_finish env sE (stdStages hyd rigid) fr).trace →
      (prepare_finish env sE (stdStages hyd rigid) fr).error =
        some (PrepError.notImplementedError
          "not doing anything with reactive_types_dicts, molsetup is unchanged") ∧
      (prepare_finish env sE (stdStages hyd rigid) fr).state.is_ok = sE.is_ok) ∧
    Stage.finalAssign ∉ (prepare_finish env sE (stdStages hyd rigid) fr).trace := by
  rcases prepare_finish_cases env sE (stdStages hyd rigid) fr with
    ⟨e, hf, heq⟩ | ⟨ns, s2, hf, hr2, heq⟩ | ⟨ns, hf, hr2, heq⟩
  · rw [heq]
    exact ⟨fun hmem => absurd hmem (stdStages_no_tail_marks hyd rigid).1,
      (stdStages_no_tail_marks hyd rigid).2.1⟩
  · rw [heq]
    refine ⟨fun _ => ⟨rfl, rfl⟩, fun hmem => ?_⟩
    rcases List.mem_append.mp hmem with hm | hm
    · exact (stdStages_no_tail_marks hyd rigid).2.1 hm
    · simp at hm
  · rw [hr] at hr2
    exact absurd hr2 (by simp)

/-- Helper: lift of the reactive-branch behavior to the pipeline core. -/
theorem prepare_core_reactive (env : Env) (selfA : MoleculePreparation) (setup0 : MolSetup)
    (rai : Option Nat) (nta : List Nat) (drb : List (Nat × Nat)) (gpa : GlueMap)
    (s : String) (hr : selfA.reactive_smarts = some s) :
    (Stage.treeBuilding ∈ (prepare_core env selfA setup0 rai nta drb gpa).trace →
      (prepare_core env selfA setup0 rai nta drb gpa).error =
        some (PrepError.notImplementedError
          "not doing anything with reactive_types_dicts, molsetup is unchanged") ∧
      (prepare_core env selfA setup0 rai nta drb gpa).state.is_ok = selfA.is_ok) ∧
    Stage.finalAssign ∉ (prepare_core env selfA setup0 rai nta drb gpa).trace := by
  unfold prepare_core
  split
  · exact ⟨fun hmem => absurd hmem (by simp), by simp⟩
  · exact prepare_finish_reactive env _ selfA.hydrate selfA.rigid_macrocycles _ s hr

/-- C6: for every `prepare` call on a preparer with a non-null
`reactive_smarts`, whenever the flexibility tree was built the call raises
the NotImplementedError of the reactive branch and leaves `is_ok`
unchanged; and on every path of such a call the final assignment that
would replace `self.setup` with the newly built setup (and set `is_ok`)
never runs, so reactive typing never affects output. -/
theorem c6_reactive_always_not_implemented (env : Env) (self : MoleculePreparation) (mol : Mol)
    (rai : Option Nat) (nta : List Nat) (drb : List (Nat × Nat)) (gpa : GlueMap) (cid : Int)
    (s : String) (hr : self.reactive_smarts = some s) :
    (Stage.treeBuilding ∈ (prepare env self mol rai nta drb gpa cid).trace →
      (prepare env self mol rai nta drb gpa cid).error =
        some (PrepError.notImplementedError
          "not doing anything with reactive_types_dicts, molsetup is unchanged") ∧
      (prepare env self mol rai nta drb gpa cid).state.is_ok = self.is_ok) ∧
    Stage.finalAssign ∉ (prepare env self mol rai nta drb gpa cid).trace := by
  unfold prepare
  split
  · exact ⟨fun hmem => absurd hmem (by simp), by simp⟩
  · split
    · exact ⟨fun hmem => absurd hmem (by simp), by simp⟩
    · split
      · exact ⟨fun hmem => absurd hmem (by simp), by simp⟩
      · exact prepare_core_reactive env _ _ rai nta drb gpa s hr

/-- Preparer configured with a reactive SMARTS pair, otherwise defaults. -/
def reactivePrep : MoleculePreparation :=
  { defaultPrep with reactive_smarts := some "CC", reactive_smarts_idx := some 1 }

/-- Witness for C6 at a concrete reactive preparation that builds a tree. -/
theorem c6_reactive_always_not_implemented_witness :
    reactivePrep.reactive_smarts = some "CC" ∧
    Stage.treeBuilding ∈ (prepare idEnv reactivePrep okMol none [] [] [] (-1)).trace ∧
    (prepare idEnv reactivePrep okMol none [] [] [] (-1)).error =
      some (PrepError.notImplementedError
        "not doing anything with reactive_types_dicts, molsetup is unchanged") ∧
    (prepare idEnv reactivePrep okMol none [] [] [] (-1)).state.is_ok = none ∧
    Stage.finalAssign ∉ (prepare idEnv reactivePrep okMol none [] [] [] (-1)).trace := by
  have h := c6_reactive_always_not_implemented idEnv reactivePrep okMol
    none [] [] [] (-1) "CC" rfl
  have hmem : Stage.treeBuilding ∈ (prepare idEnv reactivePrep okMol none [] [] [] (-1)).trace := by
    decide
  exact ⟨rfl, hmem, (h.1 hmem).1, (h.1 hmem).2, h.2⟩

/-- Helper: the observable outcome of the pipeline tail only depends on the
reactive-smarts option and the three mutable attributes of the preparer
state it receives. -/
theorem prepare_finish_obs_agree (env : Env) (sE1 sE2 : MoleculePreparation)
    (tr : List Stage) (fr : Except PrepError MolSetup)
    (h1 : sE1.reactive_smarts = sE2.reactive_smarts)
    (h2 : sE1.is_ok = sE2.is_ok) (h3 : sE1.log = sE2.log) (h4 : sE1.setup = sE2.setup) :
    obs (prepare_finish env sE1 tr fr) = obs (prepare_finish env sE2 tr fr) := by
  cases fr with
  | error e => simp [prepare_finish, obs, h2, h3, h4]
  | ok ns =>
    cases h : sE1.reactive_smarts with
    | some s =>
      have h1s : sE2.reactive_smarts = some s := by rw [← h1, h]
      simp [prepare_finish, obs, h, h1s, h2, h3, h4]
    | none =>
      have h1n : sE2.reactive_smarts = none := by rw [← h1, h]
      simp [prepare_finish, obs, h, h1n]

/-- Helper: the observable outcome of the pipeline core is unchanged
between two preparer states agreeing on every configuration field the core
reads and on the three mutable attributes (in particular it does not
depend on `reactive_smarts_idx`). -/
theorem prepare_core_obs_agree (env : Env) (sA1 sA2 : MoleculePreparation) (setup0 : MolSetup)
    (rai : Option Nat) (nta : List Nat) (drb : List (Nat × Nat)) (gpa : GlueMap)
    (hm : sA1.merge_these_atom_types = sA2.merge_these_atom_types)
    (hf : sA1.flexible_amides = sA2.flexible_amides)
    (hrs : sA1.rigidify_bonds_smarts = sA2.rigidify_bonds_smarts)
    (hri : sA1.rigidify_bonds_indices = sA2.rigidify_bonds_indices)
    (hh : sA1.hydrate = sA2.hydrate)
    (hrm : sA1.rigid_macrocycles = sA2.rigid_macrocycles)
    (hre : sA1.reactive_smarts = sA2.reactive_smarts)
    (hok : sA1.is_ok = sA2.is_ok) (hlog : sA1.log = sA2.log)
    (hsetup : sA1.setup = sA2.setup) :
    obs (prepare_core env sA1 setup0 rai nta drb gpa) =
      obs (prepare_core env sA2 setup0 rai nta drb gpa) := by
  have hps : pipelineSetup env sA1 setup0 nta = pipelineSetup env sA2 setup0 nta := by
    unfold pipelineSetup
    rw [hm, hf, hrs, hri, hh]
  unfold prepare_core
  split
  · simp [obs, hok, hlog, hsetup]
  · rw [hps, hh, hrm]
    exact prepare_finish_obs_agree env _ _ _ _ hre hok hlog rfl

/-- C7: constructing with exactly one of `reactive_smarts` and
`reactive_smarts_idx` set to None raises a ValueError at construction
time; constructing with both present or both absent succeeds and yields
the fresh state; and `prepare` performs no further per-call check of the
pairing: its observable outcome does not depend on `reactive_smarts_idx`
at all. -/
theorem c7_reactive_pair_validated_at_construction :
    (∀ (ms : List String) (hy fa rm : Bool) (mins maxs : Nat) (kc ke : Bool) (dbp : Nat)
        (rbs : List String) (rbi : List (List Nat)) (ats : List (String × String))
        (rs : Option String) (ri : Option Nat) (aim rsm : Bool),
      ((rs = none ∧ ri ≠ none) ∨ (rs ≠ none ∧ ri = none)) →
      mkMoleculePreparation ms hy fa rm mins maxs kc ke dbp rbs rbi ats rs ri aim rsm =
        Except.error (PrepError.valueError
          "reactive_smarts and reactive_smarts_idx require each other")) ∧
    (∀ (ms : List String) (hy fa rm : Bool) (mins maxs : Nat) (kc ke : Bool) (dbp : Nat)
        (rbs : List String) (rbi : List (List Nat)) (ats : List (String × String))
        (rs : Option String) (ri : Option Nat) (aim rsm : Bool),
      ((rs = none ∧ ri = none) ∨ (rs ≠ none ∧ ri ≠ none)) →
      ∃ p, mkMoleculePreparation ms hy fa rm mins maxs kc ke dbp rbs rbi ats rs ri aim rsm =
        Except.ok p ∧ p.setup = none ∧ p.is_ok = none ∧ p.log = "") ∧
    (∀ (env : Env) (self : MoleculePreparation) (mol : Mol) (rai : Option Nat)
        (nta : List Nat) (drb : List (Nat × Nat)) (gpa : GlueMap) (cid : Int)
        (v w : Option Nat),
      obs (prepare env { self with reactive_smarts_idx := v } mol rai nta drb gpa cid) =
        obs (prepare env { self with reactive_smarts_idx := w } mol rai nta drb gpa cid)) := by
  refine ⟨?_, ?_, ?_⟩
  · intro ms hy fa rm mins maxs kc ke dbp rbs rbi ats rs ri aim rsm h
    rcases h with ⟨h1, h2⟩ | ⟨h1, h2⟩
    · subst h1
      cases ri with
      | none => exact absurd rfl h2
      | some x => simp [mkMoleculePreparation]
    · subst h2
      cases rs with
      | none => exact absurd rfl h1
      | some x => simp [mkMoleculePreparation]
  · intro ms hy fa rm mins maxs kc ke dbp rbs rbi ats rs ri aim rsm h
    rcases h with ⟨h1, h2⟩ | ⟨h1, h2⟩
    · subst h1; subst h2
      exact ⟨_, rfl, rfl, rfl, rfl⟩
    · cases rs with
      | none => exact absurd rfl h1
      | some x =>
        cases ri with
        | none => exact absurd rfl h2
        | some y => exact ⟨_, rfl, rfl, rfl, rfl⟩
  · intro env self mol rai nta drb gpa cid v w
    unfold prepare
    split
    · rfl
    · split
      · rfl
      · split
        · rfl
        · exact prepare_core_obs_agree env _ _ _ rai nta drb gpa
            rfl rfl rfl rfl rfl rfl rfl rfl rfl rfl

/-- Witness for C7 at concrete configurations: one-sided pair rejected,
two-sided pair accepted, and a concrete call whose observable outcome is
identical under two different `reactive_smarts_idx` values. -/
theorem c7_reactive_pair_validated_at_construction_witness :
    mkMoleculePreparation ["H"] false false false 7 33 false false 50 [] [] []
        (some "CC") none false false =
      Except.error (PrepError.valueError
        "reactive_smarts and reactive_smarts_idx require each other") ∧
    (∃ p, mkMoleculePreparation ["H"] false false false 7 33 false false 50 [] [] []
        (some "CC") (some 1) false false = Except.ok p ∧
      p.setup = none ∧ p.is_ok = none ∧ p.log = "") ∧
    obs (prepare idEnv { defaultPrep with reactive_smarts_idx := some 5 } okMol
        none [] [] [] (-1)) =
      obs (prepare idEnv { defaultPrep with reactive_smarts_idx := none } okMol
        none [] [] [] (-1)) := by
  refine ⟨?_, ?_, ?_⟩
  · exact c7_reactive_pair_validated_at_construction.1 ["H"] false false false 7 33 false false
      50 [] [] [] (some "CC") none false false (Or.inr ⟨by simp, rfl⟩)
  · exact c7_reactive_pair_validated_at_construction.2.1 ["H"] false false false 7 33 false false
      50 [] [] [] (some "CC") (some 1) false false (Or.inr ⟨by simp, by simp⟩)
  · exact c7_reactive_pair_validated_at_construction.2.2 idEnv defaultPrep okMol
      none [] [] [] (-1) (some 5) none

/-- Claim-side well-formedness of a glue pseudo-atom entry: present in the
mapping and carrying exactly 3 coordinates. -/
def glueEntryOK (glue : GlueMap) (i : Nat) : Bool :=
  match List.lookup i glue with
  | none => false
  | some xyz => xyz.length == 3

/-- Claim-side well-formedness of one requested ring-bond deletion: the
bond is in the bond table and both endpoints have well-formed glue
entries. -/
def ringBreakEntryOK (setup : MolSetup) (glue : GlueMap) (p : Nat × Nat) : Bool :=
  setup.bond.contains (get_bond_id p.1 p.2) && glueEntryOK glue p.1 && glueEntryOK glue p.2

/-- Helper: the per-endpoint check passes exactly on well-formed glue
entries. -/
theorem checkGlueEntry_none_iff (glue : GlueMap) (i : Nat) :
    checkGlueEntry glue i = none ↔ glueEntryOK glue i = true := by
  unfold checkGlueEntry glueEntryOK
  cases List.lookup i glue with
  | none => simp
  | some xyz =>
    by_cases h : xyz.length = 3
    · simp [h]
    · simp [h]

/-- Helper: the errors the per-endpoint check can produce, with their
exact messages. -/
theorem checkGlueEntry_some (glue : GlueMap) (i : Nat) (e : PrepError)
    (h : checkGlueEntry glue i = some e) :
    (List.lookup i glue = none ∧
      e = PrepError.valueError ("missing glue pseudo for atom " ++ toString i)) ∨
    (∃ xyz, List.lookup i glue = some xyz ∧ xyz.length ≠ 3 ∧
      e = PrepError.valueError ("expected 3 coordinates (got " ++ toString xyz.length ++
        ") for glue pseudo of atom " ++ toString i)) := by
  unfold checkGlueEntry at h
  cases hl : List.lookup i glue with
  | none =>
    rw [hl] at h
    simp at h
    exact Or.inl ⟨rfl, h.symm⟩
  | some xyz =>
    rw [hl] at h
    simp only [] at h
    by_cases hlen : xyz.length = 3
    · simp [hlen] at h
    · simp only [bne_iff_ne, ne_eq, hlen, not_false_eq_true, if_true] at h
      simp at h
      exact Or.inr ⟨xyz, rfl, hlen, h.symm⟩

/-- Helper: the ring-break validation passes when all requested deletions
are well-formed. -/
theorem check_external_ring_break_none (setup : MolSetup) (bonds : List (Nat × Nat))
    (glue : GlueMap) (h : ∀ p ∈ bonds, ringBreakEntryOK setup glue p = true) :
    check_external_ring_break setup bonds glue = none := by
  induction bonds with
  | nil => rfl
  | cons b rest ih =>
    obtain ⟨i, j⟩ := b
    have hb := h (i, j) (List.mem_cons_self _ _)
    unfold ringBreakEntryOK at hb
    simp only [Bool.and_eq_true] at hb
    have h2 : checkGlueEntry glue i = none := (checkGlueEntry_none_iff glue i).mpr hb.1.2
    have h3 : checkGlueEntry glue j = none := (checkGlueEntry_none_iff glue j).mpr hb.2
    unfold check_external_ring_break
    rw [hb.1.1, h2, h3]
    simp only [Bool.not_true, Bool.false_eq_true, if_false]
    exact ih (fun p hp => h p (List.mem_cons_of_mem _ hp))

/-- Helper: a cons whose head entry is ill-formed makes the validation
produce a ValueError. -/
theorem check_external_ring_break_head_bad (setup : MolSetup) (glue : GlueMap)
    (i j : Nat) (rest : List (Nat × Nat))
    (hbad : ringBreakEntryOK setup glue (i, j) = false) :
    ∃ m, check_external_ring_break setup ((i, j) :: rest) glue =
      some (PrepError.valueError m) := by
  unfold check_external_ring_break
  by_cases hc : setup.bond.contains (get_bond_id i j) = true
  · rw [hc]
    simp only [Bool.not_true, Bool.false_eq_true, if_false]
    have hglue : glueEntryOK glue i = false ∨ glueEntryOK glue j = false := by
      unfold ringBreakEntryOK at hbad
      simp only [hc, Bool.true_and] at hbad
      exact Bool.and_eq_false_iff.mp hbad
    cases hgi : checkGlueEntry glue i with
    | some e1 =>
      rcases checkGlueEntry_some glue i e1 hgi with ⟨hn, he⟩ | ⟨xyz, hx, hl, he⟩ <;>
        subst he <;> exact ⟨_, rfl⟩
    | none =>
      have hj : glueEntryOK glue j = false := by
        rcases hglue with hgl | hgl
        · rw [(checkGlueEntry_none_iff glue i).mp hgi] at hgl
          cases hgl
        · exact hgl
      cases hgj : checkGlueEntry glue j with
      | some e1 =>
        rcases checkGlueEntry_some glue j e1 hgj with ⟨hn, he⟩ | ⟨xyz, hx, hl, he⟩ <;>
          subst he <;> exact ⟨_, rfl⟩
      | none =>
        rw [(checkGlueEntry_none_iff glue j).mp hgj] at hj
        cases hj
  · have hc2 : setup.bond.contains (get_bond_id i j) = false := by
      cases hq : setup.bond.contains (get_bond_id i j)
      · rfl
      · exact absurd hq hc
    rw [hc2]
    exact ⟨"bond (" ++ toString i ++ ", " ++ toString j ++ ") not in molsetup", rfl⟩

/-- Helper: any ill-formed requested deletion makes the validation produce
a ValueError. -/
theorem check_external_ring_break_some_of_bad (setup : MolSetup)
    (bonds : List (Nat × Nat)) (glue : GlueMap)
    (h : ∃ p ∈ bonds, ringBreakEntryOK setup glue p = false) :
    ∃ m, check_external_ring_break setup bonds glue =
      some (PrepError.valueError m) := by
  induction bonds with
  | nil =>
    rcases h with ⟨p, hp, _⟩
    simp at hp
  | cons b rest ih =>
    obtain ⟨i, j⟩ := b
    by_cases hok : ringBreakEntryOK setup glue (i, j) = true
    · rcases h with ⟨p, hp, hbad⟩
      rcases List.mem_cons.mp hp with rfl | hmem
      · rw [hok] at hbad
        cases hbad
      · have hb := hok
        unfold ringBreakEntryOK at hb
        simp only [Bool.and_eq_true] at hb
        have h2 : checkGlueEntry glue i = none := (checkGlueEntry_none_iff glue i).mpr hb.1.2
        have h3 : checkGlueEntry glue j = none := (checkGlueEntry_none_iff glue j).mpr hb.2
        unfold check_external_ring_break
        rw [hb.1.1, h2, h3]
        simp only [Bool.not_true, Bool.false_eq_true, if_false]
        exact ih ⟨p, hmem, hbad⟩
    · have hbad : ringBreakEntryOK setup glue (i, j) = false := by
        cases hq : ringBreakEntryOK setup glue (i, j)
        · rfl
        · exact absurd hq hok
      exact check_external_ring_break_head_bad setup glue i j rest hbad

/-- Helper: exact shape of every error the ring-break validation can
raise: a missing bond named by its indices, a missing glue entry named by
its endpoint, or a glue entry of wrong arity named by its endpoint. -/
theorem check_external_ring_break_error_shape (setup : MolSetup)
    (bonds : List (Nat × Nat)) (glue : GlueMap) (e : PrepError)
    (h : check_external_ring_break setup bonds glue = some e) :
    (∃ i j, (i, j) ∈ bonds ∧ setup.bond.contains (get_bond_id i j) = false ∧
      e = PrepError.valueError ("bond (" ++ toString i ++ ", " ++ toString j ++
        ") not in molsetup")) ∨
    (∃ i j k, (i, j) ∈ bonds ∧ (k = i ∨ k = j) ∧ List.lookup k glue = none ∧
      e = PrepError.valueError ("missing glue pseudo for atom " ++ toString k)) ∨
    (∃ i j k xyz, (i, j) ∈ bonds ∧ (k = i ∨ k = j) ∧ List.lookup k glue = some xyz ∧
      xyz.length ≠ 3 ∧
      e = PrepError.valueError ("expected 3 coordinates (got " ++ toString xyz.length ++
        ") for glue pseudo of atom " ++ toString k)) := by
  induction bonds with
  | nil => cases h
  | cons b rest ih =>
    obtain ⟨i, j⟩ := b
    unfold check_external_ring_break at h
    by_cases hc : setup.bond.contains (get_bond_id i j) = true
    · rw [hc] at h
      simp only [Bool.not_true, Bool.false_eq_true, if_false] at h
      cases hgi : checkGlueEntry glue i with
      | some e1 =>
        rw [hgi] at h
        simp at h
        rcases checkGlueEntry_some glue i e1 hgi with ⟨hn, he⟩ | ⟨xyz, hx, hl, he⟩
        · exact Or.inr (Or.inl ⟨i, j, i, List.mem_cons_self _ _, Or.inl rfl, hn,
            by rw [← h, he]⟩)
        · exact Or.inr (Or.inr ⟨i, j, i, xyz, List.mem_cons_self _ _, Or.inl rfl, hx, hl,
            by rw [← h, he]⟩)
      | none =>
        rw [hgi] at h
        simp only [] at h
        cases hgj : checkGlueEntry glue j with
        | some e1 =>
          rw [hgj] at h
          simp at h
          rcases checkGlueEntry_some glue j e1 hgj with ⟨hn, he⟩ | ⟨xyz, hx, hl, he⟩
          · exact Or.inr (Or.inl ⟨i, j, j, List.mem_cons_self _ _, Or.inr rfl, hn,
              by rw [← h, he]⟩)
          · exact Or.inr (Or.inr ⟨i, j, j, xyz, List.mem_cons_self _ _, Or.inr rfl, hx, hl,
              by rw [← h, he]⟩)
        | none =>
          rw [hgj] at h
          simp only [] at h
          rcases ih h with ⟨a, b2, hm, hrest⟩ | ⟨a, b2, k, hm, hrest⟩ |
            ⟨a, b2, k, xyz, hm, hrest⟩
          · exact Or.inl ⟨a, b2, List.mem_cons_of_mem _ hm, hrest⟩
          · exact Or.inr (Or.inl ⟨a, b2, k, List.mem_cons_of_mem _ hm, hrest⟩)
          · exact Or.inr (Or.inr ⟨a, b2, k, xyz, List.mem_cons_of_mem _ hm, hrest⟩)
    · have hc2 : setup.bond.contains (get_bond_id i j) = false := by
        cases hq : setup.bond.contains (get_bond_id i j)
        · rfl
        · exact absurd hq hc
      rw [hc2] at h
      simp at h
      exact Or.inl ⟨i, j, List.mem_cons_self _ _, hc2, h.symm⟩

/-- C4: `prepare` validates every requested ring-bond deletion before any
pipeline stage or tree building runs: the validation passes exactly on
well-formed requests; any ill-formed entry makes the call raise a
ValueError (with nothing in the stage trace); and every such error is
either a missing-bond error naming the bond, a missing-glue error naming
the endpoint, or a wrong-arity glue error naming the endpoint. -/
theorem c4_ring_break_validation (env : Env) (self : MoleculePreparation) (mol : Mol)
    (rai : Option Nat) (nta : List Nat) (drb : List (Nat × Nat)) (gpa : GlueMap) (cid : Int)
    (hty : classesSetupHas env.has_openbabel mol.molType = true)
    (hconf : mol.hasConformer = true) :
    ((∀ p ∈ drb, ringBreakEntryOK mol.setupData gpa p = true) →
      check_external_ring_break mol.setupData drb gpa = none) ∧
    ((∃ p ∈ drb, ringBreakEntryOK mol.setupData gpa p = false) →
      ∃ m, check_external_ring_break mol.setupData drb gpa =
          some (PrepError.valueError m) ∧
        (prepare env self mol rai nta drb gpa cid).error = some (PrepError.valueError m) ∧
        (prepare env self mol rai nta drb gpa cid).trace = []) ∧
    (∀ e, check_external_ring_break mol.setupData drb gpa = some e →
      (∃ i j, (i, j) ∈ drb ∧ mol.setupData.bond.contains (get_bond_id i j) = false ∧
        e = PrepError.valueError ("bond (" ++ toString i ++ ", " ++ toString j ++
          ") not in molsetup")) ∨
      (∃ i j k, (i, j) ∈ drb ∧ (k = i ∨ k = j) ∧ List.lookup k gpa = none ∧
        e = PrepError.valueError ("missing glue pseudo for atom " ++ toString k)) ∨
      (∃ i j k xyz, (i, j) ∈ drb ∧ (k = i ∨ k = j) ∧ List.lookup k gpa = some xyz ∧
        xyz.length ≠ 3 ∧
        e = PrepError.valueError ("expected 3 coordinates (got " ++ toString xyz.length ++
          ") for glue pseudo of atom " ++ toString k))) := by
  refine ⟨check_external_ring_break_none mol.setupData drb gpa, ?_,
    fun e he => check_external_ring_break_error_shape mol.setupData drb gpa e he⟩
  intro hbad
  obtain ⟨m, hm⟩ := check_external_ring_break_some_of_bad mol.setupData drb gpa hbad
  refine ⟨m, hm, ?_, ?_⟩ <;> simp [prepare, setup_from_mol, hty, hconf, hm]

/-- Witness for C4 at a concrete request naming a bond absent from the
bond table. -/
theorem c4_ring_break_validation_witness :
    (∃ p ∈ [((0 : Nat), (5 : Nat))], ringBreakEntryOK okMol.setupData [] p = false) ∧
    (∃ m, check_external_ring_break okMol.setupData [(0, 5)] [] =
        some (PrepError.valueError m) ∧
      (prepare idEnv defaultPrep okMol none [] [(0, 5)] [] (-1)).error =
        some (PrepError.valueError m) ∧
      (prepare idEnv defaultPrep okMol none [] [(0, 5)] [] (-1)).trace = []) := by
  have hbad : ∃ p ∈ [((0 : Nat), (5 : Nat))], ringBreakEntryOK okMol.setupData [] p = false :=
    ⟨(0, 5), by decide, by decide⟩
  exact ⟨hbad, (c4_ring_break_validation idEnv defaultPrep okMol none [] [(0, 5)] [] (-1)
    rfl rfl).2.1 hbad⟩

/-- One diagnostic entry of the typing check, naming the untyped atom. -/
def typingEntry (name : String) (idx : Nat) : String :=
  "atom number " ++ toString idx ++ " has None type, mol name: " ++ name

/-- Accumulated diagnostic message of the typing check over an atom-type
table. -/
def typingMsg (name : String) : List (Nat × Option String) → String
  | [] => ""
  | (idx, none) :: rest => typingEntry name idx ++ typingMsg name rest
  | (_, some _) :: rest => typingMsg name rest

/-- Helper: verdict of the typing loop: true exactly when the incoming
flag is true and every listed atom has a non-null type. -/
theorem typing_loop_fst (name : String) (items : List (Nat × Option String)) :
    ∀ (ok : Bool) (msg : String),
      (typing_loop name items ok msg).1 = (ok && items.all (fun p => p.2.isSome)) := by
  induction items with
  | nil =>
    intro ok msg
    simp [typing_loop]
  | cons p rest ih =>
    intro ok msg
    obtain ⟨idx, t⟩ := p
    cases t with
    | none => simp [typing_loop, ih]
    | some s => simp [typing_loop, ih]

/-- Helper: message of the typing loop: the incoming message followed by
one entry per untyped atom, in table order. -/
theorem typing_loop_snd (name : String) (items : List (Nat × Option String)) :
    ∀ (ok : Bool) (msg : String),
      (typing_loop name items ok msg).2 = msg ++ typingMsg name items := by
  induction items with
  | nil =>
    intro ok msg
    simp [typing_loop, typingMsg]
  | cons p rest ih =>
    intro ok msg
    obtain ⟨idx, t⟩ := p
    cases t with
    | none => simp [typing_loop, typingMsg, typingEntry, ih, String.append_assoc]
    | some s => simp [typing_loop, typingMsg, ih]

/-- Helper: the diagnostic message contains the entry of every untyped
atom. -/
theorem typingMsg_contains (name : String) (items : List (Nat × Option String)) (i : Nat)
    (h : (i, none) ∈ items) :
    ∃ a b, typingMsg name items = a ++ typingEntry name i ++ b := by
  induction items with
  | nil => simp at h
  | cons p rest ih =>
    rcases List.mem_cons.mp h with heq | hmem
    · rw [← heq]
      refine ⟨"", typingMsg name rest, ?_⟩
      simp [typingMsg, String.append_assoc]
    · obtain ⟨a, b, hab⟩ := ih hmem
      obtain ⟨idx, t⟩ := p
      cases t with
      | none =>
        exact ⟨typingEntry name idx ++ a, b, by simp [typingMsg, hab, String.append_assoc]⟩
      | some s => exact ⟨a, b, by simp [typingMsg, hab]⟩

/-- Helper: a failed all-typed scan names a concrete untyped atom. -/
theorem all_isSome_false (items : List (Nat × Option String))
    (h : items.all (fun p => p.2.isSome) = false) :
    ∃ i, (i, none) ∈ items := by
  induction items with
  | nil => simp at h
  | cons p rest ih =>
    obtain ⟨idx, t⟩ := p
    cases t with
    | none => exact ⟨idx, List.mem_cons_self _ _⟩
    | some s =>
      simp only [List.all_cons, Option.isSome_some, Bool.true_and] at h
      exact (ih h).imp (fun i hi => List.mem_cons_of_mem _ hi)

/-- Helper: a non-raising pipeline tail replaces the stored setup by the
built one and derives `is_ok` and `log` from the all-atoms-typed scan of
its atom-type table. -/
theorem prepare_finish_final (env : Env) (sE : MoleculePreparation) (tr : List Stage)
    (fr : Except PrepError MolSetup)
    (herr : (prepare_finish env sE tr fr).error = none) :
    ∃ fs, (prepare_finish env sE tr fr).state.setup = some fs ∧
      (prepare_finish env sE tr fr).state.is_ok =
        some (fs.atom_type.all (fun p => p.2.isSome)) ∧
      (prepare_finish env sE tr fr).state.log = typingMsg fs.name fs.atom_type := by
  rcases prepare_finish_cases env sE tr fr with
    ⟨e, hf, heq⟩ | ⟨ns, s, hf, hr, heq⟩ | ⟨ns, hf, hr, heq⟩
  · rw [heq] at herr
    simp at herr
  · rw [heq] at herr
    simp at herr
  · rw [heq]
    refine ⟨ns, rfl, ?_, ?_⟩
    · show some ((are_all_atoms_typed ns).1) = some (ns.atom_type.all (fun p => p.2.isSome))
      rw [are_all_atoms_typed, typing_loop_fst, Bool.true_and]
    · show (are_all_atoms_typed ns).2 = typingMsg ns.name ns.atom_type
      rw [are_all_atoms_typed, typing_loop_snd, String.empty_append]

/-- Helper: shape of every `prepare` call that raises no exception and
whose trace shows a built tree. -/
theorem prepare_final_shape (env : Env) (self : MoleculePreparation) (mol : Mol)
    (rai : Option Nat) (nta : List Nat) (drb : List (Nat × Nat)) (gpa : GlueMap) (cid : Int)
    (herr : (prepare env self mol rai nta drb gpa cid).error = none)
    (htree : Stage.treeBuilding ∈ (prepare env self mol rai nta drb gpa cid).trace) :
    ∃ fs, (prepare env self mol rai nta drb gpa cid).state.setup = some fs ∧
      (prepare env self mol rai nta drb gpa cid).state.is_ok =
        some (fs.atom_type.all (fun p => p.2.isSome)) ∧
      (prepare env self mol rai nta drb gpa cid).state.log =
        typingMsg fs.name fs.atom_type := by
  revert herr htree
  unfold prepare
  split
  · intro herr htree
    simp at herr
  · split
    · intro herr htree
      simp at herr
    · split
      · intro herr htree
        simp at herr
      · unfold prepare_core
        split
        · intro herr htree
          simp at htree
        · intro herr htree
          exact prepare_finish_final env _ _ _ herr

/-- C3 (amended): a `prepare` call that reaches the end after tree
building sets `is_ok` to True exactly when every atom listed in the final
atom-type table (whether or not its ignore flag is set) carries a non-null
type; when `is_ok` is False the recorded log names an untyped atom index;
and the built setup is kept available in the `setup` attribute either
way. -/
theorem c3_typing_check_amended (env : Env) (self : MoleculePreparation) (mol : Mol)
    (rai : Option Nat) (nta : List Nat) (drb : List (Nat × Nat)) (gpa : GlueMap) (cid : Int)
    (herr : (prepare env self mol rai nta drb gpa cid).error = none)
    (htree : Stage.treeBuilding ∈ (prepare env self mol rai nta drb gpa cid).trace) :
    ∃ fs, (prepare env self mol rai nta drb gpa cid).state.setup = some fs ∧
      ((prepare env self mol rai nta drb gpa cid).state.is_ok = some true ↔
        fs.atom_type.all (fun p => p.2.isSome) = true) ∧
      ((prepare env self mol rai nta drb gpa cid).state.is_ok = some false →
        ∃ i a b, (i, none) ∈ fs.atom_type ∧
          (prepare env self mol rai nta drb gpa cid).state.log =
            a ++ typingEntry fs.name i ++ b) := by
  obtain ⟨fs, hsetup, hok, hlog⟩ :=
    prepare_final_shape env self mol rai nta drb gpa cid herr htree
  refine ⟨fs, hsetup, ?_, ?_⟩
  · rw [hok]
    simp
  · intro hfalse
    rw [hok] at hfalse
    have hall : fs.atom_type.all (fun p => p.2.isSome) = false := by
      simpa using hfalse
    obtain ⟨i, hi⟩ := all_isSome_false _ hall
    obtain ⟨a, b, hab⟩ := typingMsg_contains fs.name _ i hi
    exact ⟨i, a, b, hi, by rw [hlog, hab]⟩

/-- A flexibility-builder output with one ignored untyped atom and one
non-ignored typed atom. -/
def gapSetup : MolSetup :=
  { name := "gap"
    implicitH := false
    atom_type := [(0, none), (1, some "C")]
    atom_ignore := [(0, true), (1, false)]
    bond := [] }

/-- Environment whose flexibility builder returns `gapSetup`. -/
def gapEnv : Env :=
  { idEnv with flex_builder := fun _ _ _ _ _ => Except.ok gapSetup }

/-- Counterexample to C3 as stated: a completed preparation whose final
setup has every non-ignored atom typed, yet `is_ok` is set to False (the
code scans all atoms of the table, ignored ones included). -/
theorem c3_counterexample_ignored_untyped_atom :
    (prepare gapEnv defaultPrep okMol none [] [] [] (-1)).error = none ∧
    (prepare gapEnv defaultPrep okMol none [] [] [] (-1)).state.setup = some gapSetup ∧
    allNonIgnoredTyped gapSetup = true ∧
    (prepare gapEnv defaultPrep okMol none [] [] [] (-1)).state.is_ok = some false := by
  refine ⟨rfl, rfl, rfl, rfl⟩

/-- Witness for the amended C3 at a concrete completed preparation with an
untyped atom. -/
theorem c3_typing_check_amended_witness :
    ((prepare gapEnv defaultPrep okMol none [] [] [] (-1)).error = none ∧
      Stage.treeBuilding ∈ (prepare gapEnv defaultPrep okMol none [] [] [] (-1)).trace) ∧
    (∃ fs, (prepare gapEnv defaultPrep okMol none [] [] [] (-1)).state.setup = some fs ∧
      ((prepare gapEnv defaultPrep okMol none [] [] [] (-1)).state.is_ok = some true ↔
        fs.atom_type.all (fun p => p.2.isSome) = true) ∧
      ((prepare gapEnv defaultPrep okMol none [] [] [] (-1)).state.is_ok = some false →
        ∃ i a b, (i, none) ∈ fs.atom_type ∧
          (prepare gapEnv defaultPrep okMol none [] [] [] (-1)).state.log =
            a ++ typingEntry fs.name i ++ b)) := by
  exact ⟨⟨rfl, by decide⟩,
    c3_typing_check_amended gapEnv defaultPrep okMol none [] [] [] (-1) rfl (by decide)⟩

/-- Claim-side reading: a line is kept when it is neither empty nor a
torsion-count (TORSDOF) line. -/
def keptLine (line : String) : Bool :=
  !(line == "") && !(line.startsWith "TORSDOF")

/-- Claim-side reading: replacement of characters 13-14 by the CA label. -/
def caSubstituted (line : String) : String :=
  line.take 13 ++ "CA" ++ line.drop 15

/-- Claim-side reading: replacement of characters 13-14 by the CB label. -/
def cbSubstituted (line : String) : String :=
  line.take 13 ++ "CB" ++ line.drop 15

/-- Claim-side reading: label given to an ATOM record depending on how
many ATOM records were already seen. -/
def specLabel : Nat → String → String
  | 0, line => caSubstituted line
  | 1, line => cbSubstituted line
  | _, line => line

/-- Claim-side reading: rename the first and second ATOM records (counting
from `k` already seen), leaving every other line unchanged and in order. -/
def renameFirstTwoAtoms : Nat → List String → List String
  | _, [] => []
  | k, line :: rest =>
    if line.startsWith "ATOM" then specLabel k line :: renameFirstTwoAtoms (k + 1) rest
    else line :: renameFirstTwoAtoms k rest

/-- Concatenation of lines, one newline after each. -/
def joinLines : List String → String
  | [] => ""
  | l :: ls => l ++ "\n" ++ joinLines ls

/-- Helper: the ATOM renaming of the source loop agrees with the
claim-side labelling. -/
theorem renameAtomLine_succ (k : Nat) (line : String) :
    renameAtomLine (k + 1) line = specLabel k line := by
  match k with
  | 0 => rfl
  | 1 => rfl
  | n + 2 => rfl

/-- Helper: the source line loop equals the claim-side
filter-then-rename-and-join composition, for any accumulator and count. -/
theorem adapt_loop_spec (lines : List String) :
    ∀ (k : Nat) (acc : String),
      adapt_loop lines k acc =
        acc ++ joinLines (renameFirstTwoAtoms k (lines.filter keptLine)) := by
  induction lines with
  | nil =>
    intro k acc
    simp [adapt_loop, joinLines, renameFirstTwoAtoms]
  | cons l ls ih =>
    intro k acc
    by_cases h1 : l = ""
    · subst h1
      simp [adapt_loop, List.filter_cons, keptLine, ih]
    · by_cases h2 : l.startsWith "TORSDOF" = true
      · simp [adapt_loop, List.filter_cons, keptLine, h1, h2, ih]
      · have hkept : keptLine l = true := by
          simp [keptLine, h1, h2]
        by_cases h3 : l.startsWith "ATOM" = true
        · simp [adapt_loop, List.filter_cons, hkept, h1, h2, h3, renameFirstTwoAtoms,
            joinLines, ih, renameAtomLine_succ, String.append_assoc]
        · simp [adapt_loop, List.filter_cons, hkept, h1, h2, h3, renameFirstTwoAtoms,
            joinLines, ih, String.append_assoc]

/-- C9: the flex-residue adaptation is a purely textual transformation:
the result is the BEGIN_RES line built from the supplied residue, chain
and number, followed by the input lines with empty and TORSDOF lines
dropped, the first ATOM record relabelled CA and the second CB (characters
13-14), all other lines unchanged and in order, followed by the END_RES
line. -/
theorem c9_adapt_flexres_textual (pdbqt_string res chain num : String) :
    adapt_pdbqt_for_autodock4_flexres pdbqt_string res chain num =
      ("BEGIN_RES " ++ res ++ " " ++ chain ++ " " ++ num ++ "\n") ++
        joinLines (renameFirstTwoAtoms 0 ((pdbqt_string.splitOn "\n").filter keptLine)) ++
        ("END_RES " ++ res ++ " " ++ chain ++ " " ++ num ++ "\n") := by
  unfold adapt_pdbqt_for_autodock4_flexres
  rw [adapt_loop_spec]

end Meeko

